import Mathlib

set_option maxHeartbeats 1000000
set_option maxRecDepth 4096

/-
Shallow embedding of the provider abstraction and streaming/fallback
orchestration layer of the backend (prompt resolution, per-provider message
formatting, SSE framing, the default-to-fallback retry policy, the provider
registry and the health probe).  Python strings are modelled as lists of
Unicode scalar values (the type Str below); vendor network behaviour is an
explicit input of each model.
-/

/-- Python strings are modelled as lists of characters. -/
abbrev Str := List Char

/-- Character list of a Lean string literal. -/
def chars (s : String) : Str := s.data

/-- The character class accepted by the Python str.isspace method (and
stripped by str.strip with no arguments): bidirectional classes WS, B, S
and category Zs. -/
def pyIsSpace (c : Char) : Bool :=
  (9 ≤ c.toNat && c.toNat ≤ 13) || (28 ≤ c.toNat && c.toNat ≤ 31) ||
  c.toNat == 32 || c.toNat == 0x85 || c.toNat == 0xA0 || c.toNat == 0x1680 ||
  (0x2000 ≤ c.toNat && c.toNat ≤ 0x200A) || c.toNat == 0x2028 ||
  c.toNat == 0x2029 || c.toNat == 0x202F || c.toNat == 0x205F ||
  c.toNat == 0x3000

/-- Python str.lstrip with no arguments. -/
def pyLstrip (s : Str) : Str := s.dropWhile pyIsSpace

/-- Python str.rstrip with no arguments. -/
def pyRstrip (s : Str) : Str := (s.reverse.dropWhile pyIsSpace).reverse

/-- Python str.strip with no arguments. -/
def pyStrip (s : Str) : Str := pyRstrip (pyLstrip s)

/-- Message roles, from models.py (MessageRole). -/
inductive Role where
  | user
  | assistant
  | system
deriving DecidableEq, Repr

/-- The wire-format name of a role. -/
def roleStr : Role → Str
  | .user => chars ("user")
  | .assistant => chars ("assistant")
  | .system => chars ("system")

/-- models.py ConversationMessage (content already validated). -/
structure ConversationMessage where
  role : Role
  content : Str
  timestamp : Option Int := none
  model : Option Str := none
deriving DecidableEq, Repr

/-- configuration.py GENERIC_SYSTEM_PROMPT default value. -/
def GENERIC_SYSTEM_PROMPT : Str :=
  chars ("You are a helpful AI assistant that provides accurate and informative responses.")

/-- configuration.py GPT_SYSTEM_PROMPT default value. -/
def GPT_SYSTEM_PROMPT : Str :=
  chars ("You are ChatGPT, a helpful AI assistant that provides accurate and informative responses.")

/-- configuration.py CLAUDE_SYSTEM_PROMPT default value. -/
def CLAUDE_SYSTEM_PROMPT : Str :=
  chars ("You are Claude, a highly capable AI assistant created by Anthropic, focused on providing accurate, nuanced, and helpful responses.")

/-- configuration.py GEMINI_SYSTEM_PROMPT default value. -/
def GEMINI_SYSTEM_PROMPT : Str :=
  chars ("You are Gemini, a helpful and capable AI assistant created by Google, focused on providing clear and accurate responses.")

/-- configuration.py GROQ_SYSTEM_PROMPT default value. -/
def GROQ_SYSTEM_PROMPT : Str :=
  chars ("You are a helpful AI assistant powered by Groq, focused on providing fast and accurate responses.")

/-- prompt_engineering.py get_system_prompt.  The provider argument is
optional in the source (default None); an absent provider is modelled as
none.  A message content counts as a valid system prompt exactly when the
source filter keeps it: truthy, nonempty after strip, and nonempty after
removing whitespace characters and periods. -/
def get_system_prompt (messages : List ConversationMessage) (provider : Option Str) : Str :=
  let fromMessages : Option Str :=
    if messages.isEmpty then none
    else
      let systemMessages := (messages.filter (fun m => m.role == Role.system)).map
        (fun m => m.content)
      let validSystemMessages := systemMessages.filter (fun msg =>
        !msg.isEmpty && !(pyStrip msg).isEmpty &&
          decide (0 < (msg.filter (fun c => !(pyIsSpace c) && !(c == '.'))).length))
      if validSystemMessages.isEmpty then none
      else some (List.intercalate (chars (" ")) validSystemMessages)
  match fromMessages with
  | some p => p
  | none =>
    match provider with
    | some p =>
      if !p.isEmpty then
        if p == chars ("gpt") then GPT_SYSTEM_PROMPT
        else if p == chars ("claude") then CLAUDE_SYSTEM_PROMPT
        else if p == chars ("gemini") then GEMINI_SYSTEM_PROMPT
        else if p == chars ("groq") then GROQ_SYSTEM_PROMPT
        else GENERIC_SYSTEM_PROMPT
      else GENERIC_SYSTEM_PROMPT
    | none => GENERIC_SYSTEM_PROMPT

/-- Strings that are nonempty after removing all whitespace characters and
periods, as the spec words the triviality filter. -/
def nontrivialStr (msg : Str) : Bool :=
  !(msg.filter (fun c => !(pyIsSpace c) && !(c == '.'))).isEmpty

/-- The contents of the nontrivial system-role messages of a conversation,
in order. -/
def nontrivialSystemContents (messages : List ConversationMessage) : List Str :=
  ((messages.filter (fun m => m.role == Role.system)).map (fun m => m.content)).filter
    nontrivialStr

lemma pyStrip_eq_nil {s : Str} (h : pyStrip s = []) : ∀ c ∈ s, pyIsSpace c = true := by
  intro c hc
  unfold pyStrip pyRstrip pyLstrip at h
  rw [List.reverse_eq_nil_iff, List.dropWhile_eq_nil_iff] at h
  have hdrop : ∀ x ∈ s.dropWhile pyIsSpace, pyIsSpace x = true := by
    intro x hx
    exact h x (List.mem_reverse.mpr hx)
  rcases List.mem_append.mp
      ((List.takeWhile_append_dropWhile pyIsSpace s).symm ▸ hc) with htk | hdr
  · exact List.mem_takeWhile_imp htk
  · exact hdrop c hdr

lemma valid_filter_eq_nontrivial (msg : Str) :
    (!msg.isEmpty && !(pyStrip msg).isEmpty &&
      decide (0 < (msg.filter (fun c => !(pyIsSpace c) && !(c == '.'))).length))
    = nontrivialStr msg := by
  unfold nontrivialStr
  by_cases hf : msg.filter (fun c => !(pyIsSpace c) && !(c == '.')) = []
  · simp [hf]
  · have hne : msg ≠ [] := by
      intro hmsg; rw [hmsg] at hf; simp at hf
    have hstrip : pyStrip msg ≠ [] := by
      intro hs
      apply hf
      rw [List.filter_eq_nil_iff]
      intro c hc
      simp [pyStrip_eq_nil hs c hc]
    have hlen : 0 < (msg.filter (fun c => !(pyIsSpace c) && !(c == '.'))).length :=
      List.length_pos.mpr hf
    have h1 : msg.isEmpty = false := by
      cases hmm : msg.isEmpty
      · rfl
      · exact absurd (List.isEmpty_iff.mp hmm) hne
    have h2 : (pyStrip msg).isEmpty = false := by
      cases hmm : (pyStrip msg).isEmpty
      · rfl
      · exact absurd (List.isEmpty_iff.mp hmm) hstrip
    have h3 : (msg.filter (fun c => !(pyIsSpace c) && !(c == '.'))).isEmpty = false := by
      cases hmm : (msg.filter (fun c => !(pyIsSpace c) && !(c == '.'))).isEmpty
      · rfl
      · exact absurd (List.isEmpty_iff.mp hmm) hf
    simp [h1, h2, h3, hlen]

/-- C2: get_system_prompt returns the space-join of the raw contents of
exactly the nontrivial system messages when at least one exists; otherwise
the provider-specific default for gpt, claude, gemini and groq; otherwise
the generic default when the provider is unrecognized or absent. -/
theorem C2_system_prompt_resolution (messages : List ConversationMessage) (provider : Option Str) :
    (nontrivialSystemContents messages ≠ [] →
      get_system_prompt messages provider =
        List.intercalate (chars (" ")) (nontrivialSystemContents messages)) ∧
    (nontrivialSystemContents messages = [] →
      (∀ p : Str, provider = some p →
        ((p = chars ("gpt") → get_system_prompt messages provider = GPT_SYSTEM_PROMPT) ∧
         (p = chars ("claude") → get_system_prompt messages provider = CLAUDE_SYSTEM_PROMPT) ∧
         (p = chars ("gemini") → get_system_prompt messages provider = GEMINI_SYSTEM_PROMPT) ∧
         (p = chars ("groq") → get_system_prompt messages provider = GROQ_SYSTEM_PROMPT) ∧
         (p ∉ [chars ("gpt"), chars ("claude"), chars ("gemini"), chars ("groq")] →
            get_system_prompt messages provider = GENERIC_SYSTEM_PROMPT))) ∧
      (provider = none → get_system_prompt messages provider = GENERIC_SYSTEM_PROMPT)) := by
  have hfe :
      ((messages.filter (fun m => m.role == Role.system)).map (fun m => m.content)).filter
          (fun msg => !msg.isEmpty && !(pyStrip msg).isEmpty &&
            decide (0 < (msg.filter (fun c => !(pyIsSpace c) && !(c == '.'))).length))
        = nontrivialSystemContents messages := by
    unfold nontrivialSystemContents
    exact List.filter_congr (fun x _ => valid_filter_eq_nontrivial x)
  constructor
  · intro hne
    have hmsgs : messages ≠ [] := by
      intro hmsg
      apply hne
      rw [hmsg]; rfl
    unfold get_system_prompt
    simp only [hfe]
    have hm : messages.isEmpty = false := by
      simpa [List.isEmpty_iff] using hmsgs
    have hv : (nontrivialSystemContents messages).isEmpty = false := by
      simpa [List.isEmpty_iff] using hne
    simp [hm, hv]
  · intro hnil
    have hbranch : get_system_prompt messages provider =
        (match provider with
          | some p =>
            if !p.isEmpty then
              if p == chars ("gpt") then GPT_SYSTEM_PROMPT
              else if p == chars ("claude") then CLAUDE_SYSTEM_PROMPT
              else if p == chars ("gemini") then GEMINI_SYSTEM_PROMPT
              else if p == chars ("groq") then GROQ_SYSTEM_PROMPT
              else GENERIC_SYSTEM_PROMPT
            else GENERIC_SYSTEM_PROMPT
          | none => GENERIC_SYSTEM_PROMPT) := by
      unfold get_system_prompt
      simp only [hfe]
      by_cases hm : messages.isEmpty
      · simp [hm]
      · have hv : (nontrivialSystemContents messages).isEmpty = true := by
          simp [List.isEmpty_iff, hnil]
        simp [hm, hv]
    refine ⟨?_, ?_⟩
    · intro p hp
      subst hp
      refine ⟨?_, ?_, ?_, ?_, ?_⟩
      · intro h; subst h; rw [hbranch]; decide
      · intro h; subst h; rw [hbranch]; decide
      · intro h; subst h; rw [hbranch]; decide
      · intro h; subst h; rw [hbranch]; decide
      · intro h
        simp only [List.mem_cons, List.not_mem_nil] at h
        push_neg at h
        obtain ⟨h1, h2, h3, h4, _⟩ := h
        by_cases hpe : p.isEmpty
        · simp [hbranch, hpe]
        · simp [hbranch, hpe, h1, h2, h3, h4]
    · intro h; subst h; simp [hbranch]

/-- providers/openai_provider.py OpenAIProvider.format_messages: a leading
system entry (join of the system messages if any exist, else the stored
system prompt of the adapter) followed by the non-system messages. -/
def openaiFormatMessages (systemPrompt : Str) (messages : List ConversationMessage) :
    List (Str × Str) :=
  let systemMessages := messages.filter (fun m => m.role == Role.system)
  let sp :=
    if !systemMessages.isEmpty then
      List.intercalate (chars (" ")) (systemMessages.map (fun m => m.content))
    else systemPrompt
  (chars ("system"), sp) ::
    (messages.filter (fun m => m.role != Role.system)).map (fun m => (roleStr m.role, m.content))

/-- providers/groq_provider.py GroqProvider.format_messages (same shape as
the OpenAI adapter in the source). -/
def groqFormatMessages (systemPrompt : Str) (messages : List ConversationMessage) :
    List (Str × Str) :=
  let systemMessages := messages.filter (fun m => m.role == Role.system)
  let sp :=
    if !systemMessages.isEmpty then
      List.intercalate (chars (" ")) (systemMessages.map (fun m => m.content))
    else systemPrompt
  (chars ("system"), sp) ::
    (messages.filter (fun m => m.role != Role.system)).map (fun m => (roleStr m.role, m.content))

/-- providers/anthropic_provider.py AnthropicProvider.format_messages: drops
system messages (the system prompt travels in a separate request field). -/
def anthropicFormatMessages (messages : List ConversationMessage) : List (Str × Str) :=
  (messages.filter (fun m => m.role != Role.system)).map (fun m => (roleStr m.role, m.content))

/-- providers/gemini_provider.py GeminiProvider.format_messages: just the
content strings of the non-system messages. -/
def geminiFormatMessages (messages : List ConversationMessage) : List Str :=
  (messages.filter (fun m => m.role != Role.system)).map (fun m => m.content)

lemma roleStr_ne_system {r : Role} (h : r ≠ Role.system) : roleStr r ≠ chars ("system") := by
  cases r
  · decide
  · decide
  · exact absurd rfl h

lemma openai_shape_filter (systemPrompt : Str) (messages : List ConversationMessage) :
    (openaiFormatMessages systemPrompt messages).filter (fun e => e.1 != chars ("system"))
      = (messages.filter (fun m => m.role != Role.system)).map
          (fun m => (roleStr m.role, m.content)) := by
  unfold openaiFormatMessages
  simp only [List.filter_cons]
  rw [if_neg (by simp)]
  rw [List.filter_map]
  have hall : ∀ m ∈ messages.filter (fun m => m.role != Role.system),
      ((fun e : Str × Str => e.1 != chars ("system")) ∘
        fun m : ConversationMessage => (roleStr m.role, m.content)) m = true := by
    intro m hm
    have hr : m.role ≠ Role.system := by
      have := List.of_mem_filter hm
      simpa using this
    simpa using roleStr_ne_system hr
  rw [List.filter_eq_self.mpr hall]

/-- C6: each of the four adapter formatters carries the non-system messages
of the conversation in their original relative order: the non-system part of
the payload is the image of the filtered conversation, and that filtered
list is a sublist (order-preserving subsequence) of the conversation. -/
theorem C6_format_preserves_order (systemPrompt : Str) (messages : List ConversationMessage) :
    (messages.filter (fun m => m.role != Role.system)).Sublist messages ∧
    (openaiFormatMessages systemPrompt messages).filter (fun e => e.1 != chars ("system"))
      = (messages.filter (fun m => m.role != Role.system)).map
          (fun m => (roleStr m.role, m.content)) ∧
    (groqFormatMessages systemPrompt messages).filter (fun e => e.1 != chars ("system"))
      = (messages.filter (fun m => m.role != Role.system)).map
          (fun m => (roleStr m.role, m.content)) ∧
    anthropicFormatMessages messages
      = (messages.filter (fun m => m.role != Role.system)).map
          (fun m => (roleStr m.role, m.content)) ∧
    geminiFormatMessages messages
      = (messages.filter (fun m => m.role != Role.system)).map (fun m => m.content) := by
  refine ⟨List.filter_sublist messages, openai_shape_filter systemPrompt messages, ?_, rfl, rfl⟩
  have h : groqFormatMessages systemPrompt messages
      = openaiFormatMessages systemPrompt messages := rfl
  rw [h]
  exact openai_shape_filter systemPrompt messages

/-- C9: for the OpenAI-like and Groq-like adapters, as soon as the
conversation holds any system-role message (trivial ones included) the
leading system entry is the space-join of the raw system contents and the
stored system prompt of the adapter is ignored; the stored prompt is used
only when no system-role message exists. -/
theorem C9_raw_system_join_overrides (sp sp2 : Str) (messages : List ConversationMessage) :
    (messages.filter (fun m => m.role == Role.system) ≠ [] →
      openaiFormatMessages sp messages = openaiFormatMessages sp2 messages ∧
      (openaiFormatMessages sp messages).head? = some (chars ("system"),
        List.intercalate (chars (" "))
          ((messages.filter (fun m => m.role == Role.system)).map (fun m => m.content))) ∧
      groqFormatMessages sp messages = groqFormatMessages sp2 messages ∧
      (groqFormatMessages sp messages).head? = some (chars ("system"),
        List.intercalate (chars (" "))
          ((messages.filter (fun m => m.role == Role.system)).map (fun m => m.content)))) ∧
    (messages.filter (fun m => m.role == Role.system) = [] →
      (openaiFormatMessages sp messages).head? = some (chars ("system"), sp) ∧
      (groqFormatMessages sp messages).head? = some (chars ("system"), sp)) := by
  constructor
  · intro hne
    have hie : (messages.filter (fun m => m.role == Role.system)).isEmpty = false := by
      cases hmm : (messages.filter (fun m => m.role == Role.system)).isEmpty
      · rfl
      · exact absurd (List.isEmpty_iff.mp hmm) hne
    refine ⟨?_, ?_, ?_, ?_⟩ <;>
      simp [openaiFormatMessages, groqFormatMessages, hie]
  · intro hnil
    have hie : (messages.filter (fun m => m.role == Role.system)).isEmpty = true := by
      simp [List.isEmpty_iff, hnil]
    constructor <;> simp [openaiFormatMessages, groqFormatMessages, hie]

/-- C9 witness: a whitespace-only system message still overrides the stored
prompt on both adapters. -/
theorem C9_witness :
    (openaiFormatMessages (chars ("stored prompt P"))
        [⟨Role.system, chars (" "), none, none⟩, ⟨Role.user, chars ("hi"), none, none⟩]
      = openaiFormatMessages (chars ("stored prompt Q"))
        [⟨Role.system, chars (" "), none, none⟩, ⟨Role.user, chars ("hi"), none, none⟩]) ∧
    (openaiFormatMessages (chars ("stored prompt P"))
        [⟨Role.system, chars (" "), none, none⟩, ⟨Role.user, chars ("hi"), none, none⟩]).head?
      = some (chars ("system"), chars (" ")) := by
  have h := C9_raw_system_join_overrides (chars ("stored prompt P")) (chars ("stored prompt Q"))
    [⟨Role.system, chars (" "), none, none⟩, ⟨Role.user, chars ("hi"), none, none⟩]
  have h1 := h.1 (by decide)
  exact ⟨h1.1, by rw [h1.2.1]; decide⟩

/-- Lowercase hexadecimal digit, as produced by the %04x format of the
Python json encoder. -/
def hexDig (n : Nat) : Char :=
  if n < 10 then Char.ofNat (48 + n) else Char.ofNat (87 + n)

/-- Four lowercase hexadecimal digits of a number below 0x10000. -/
def hex4 (n : Nat) : List Char :=
  [hexDig (n / 4096 % 16), hexDig (n / 256 % 16), hexDig (n / 16 % 16), hexDig (n % 16)]

/-- Per-character encoding of the Python json.dumps string encoder with its
default ensure_ascii=True: quote and backslash get two-character escapes,
printable ASCII is copied, the named control escapes are used for backspace,
tab, newline, form feed and carriage return, every other character becomes
one (below 0x10000) or two (a surrogate pair, at or above 0x10000) \uXXXX
escapes.  For code points at or above 0x10000 the source combines the bits
with shifts, or and and; on this range that arithmetic coincides with the
division and remainder form used here. -/
def encodeChar (c : Char) : List Char :=
  if c = '"' then ['\\', '"']
  else if c = '\\' then ['\\', '\\']
  else if 0x20 ≤ c.toNat ∧ c.toNat ≤ 0x7E then [c]
  else if c = Char.ofNat 8 then ['\\', 'b']
  else if c = '\t' then ['\\', 't']
  else if c = '\n' then ['\\', 'n']
  else if c = Char.ofNat 12 then ['\\', 'f']
  else if c = '\r' then ['\\', 'r']
  else if c.toNat < 0x10000 then '\\' :: 'u' :: hex4 c.toNat
  else
    ('\\' :: 'u' :: hex4 (0xD800 + (c.toNat - 0x10000) / 1024)) ++
    ('\\' :: 'u' :: hex4 (0xDC00 + (c.toNat - 0x10000) % 1024))

/-- The escaped body of a json string literal. -/
def encodeBody (s : Str) : Str := s.foldr (fun c acc => encodeChar c ++ acc) []

/-- A full json string literal, quotes included. -/
def encodeString (s : Str) : Str := '"' :: (encodeBody s ++ ['"'])

/-- json.dumps of the data object built by format_stream_chunk, with the
default separators and key order of the source dict literal. -/
def jsonDumpsChunk (messageId content model : Str) : Str :=
  chars ("\x7b\"id\": ") ++ encodeString messageId ++
  chars (", \"delta\": \x7b\"content\": ") ++ encodeString content ++
  chars (", \"model\": ") ++ encodeString model ++ chars ("\x7d\x7d")

/-- providers/base.py BaseProvider.format_stream_chunk. -/
def format_stream_chunk (messageId content model : Str) : Str :=
  chars ("data: ") ++ jsonDumpsChunk messageId content model ++ chars ("\n\n")

/-- providers/base.py BaseProvider.format_done_message. -/
def format_done_message : Str := chars ("data: [DONE]\n\n")

/-- The behaviour of one vendor streaming session, an input of the model:
the vendor-native chunk texts received in order (none marks an empty/control
chunk carrying no content delta) and, when the session fails, the error it
raises after those chunks. -/
structure VendorStream where
  chunks : List (Option Str)
  error : Option Str
deriving DecidableEq, Repr

/-- providers/openai_provider.py OpenAIProvider.stream_response: frames every
non-null content delta, then either emits the terminal sentinel on clean
exhaustion or re-raises the vendor error (the sentinel line is inside the
try block, after the loop). -/
def openaiStreamResponse (messageId model : Str) (vs : VendorStream) :
    List Str × Option Str :=
  let yields := (vs.chunks.filterMap id).map (fun c => format_stream_chunk messageId c model)
  match vs.error with
  | none => (yields ++ [format_done_message], none)
  | some e => (yields, some e)

/-- The error surfaced to the HTTP layer (fastapi HTTPException). -/
inductive HErr where
  | httpException (statusCode : Nat) (detail : Str)
deriving DecidableEq, Repr

/-- providers/base.py BaseProvider.try_with_models: run the default-model
stream; on any error run the fallback-model stream from scratch, appending
its output after the chunks already yielded; if that fails too, raise one
HTTP 500 whose detail names the provider and the message of the inner error.
The pair returned is (all strings yielded, error raised if any). -/
def try_with_models (providerName defaultModel fallbackModel messageId : Str)
    (defaultStream fallbackStream : VendorStream) : List Str × Option HErr :=
  match openaiStreamResponse messageId defaultModel defaultStream with
  | (ys, none) => (ys, none)
  | (ys, some _) =>
    match openaiStreamResponse messageId fallbackModel fallbackStream with
    | (zs, none) => (ys ++ zs, none)
    | (zs, some innerE) =>
      (ys ++ zs, some (HErr.httpException 500
        (chars ("Both default and fallback models failed for provider ") ++ providerName ++
          chars (": ") ++ innerE)))

/-- aiproviders.py stream_response drive loop: forward each chunk and stop
right after the terminal sentinel. -/
def driveStream : List Str → List Str
  | [] => []
  | c :: rest => c :: (if c == format_done_message then [] else driveStream rest)

lemma format_stream_chunk_ne_done (messageId content model : Str) :
    format_stream_chunk messageId content model ≠ format_done_message := by
  intro h
  unfold format_stream_chunk jsonDumpsChunk at h
  rw [show format_done_message = chars ("data: ") ++ chars ("[DONE]\n\n") from by decide] at h
  rw [List.append_assoc, List.append_assoc, List.append_assoc] at h
  have h2 := List.append_cancel_left h
  rw [show chars ("\x7b\"id\": ") = '{' :: chars ("\"id\": ") from by decide,
    show chars ("[DONE]\n\n") = '[' :: chars ("DONE]\n\n") from by decide,
    List.cons_append] at h2
  exact absurd (List.head_eq_of_cons_eq h2) (by decide)

lemma frames_no_done (messageId model : Str) (cs : List Str) :
    ∀ x ∈ cs.map (fun c => format_stream_chunk messageId c model), x ≠ format_done_message := by
  intro x hx
  obtain ⟨c, _, rfl⟩ := List.mem_map.mp hx
  exact format_stream_chunk_ne_done messageId c model

lemma driveStream_of_no_done {l : List Str} (h : ∀ x ∈ l, x ≠ format_done_message) :
    driveStream l = l := by
  induction l with
  | nil => rfl
  | cons c rest ih =>
    have hc : (c == format_done_message) = false := by
      simp [h c (List.mem_cons_self c rest)]
    simp [driveStream, hc, ih (fun x hx => h x (List.mem_cons_of_mem c hx))]

lemma driveStream_append_done {l : List Str} (h : ∀ x ∈ l, x ≠ format_done_message) :
    driveStream (l ++ [format_done_message]) = l ++ [format_done_message] := by
  induction l with
  | nil => simp [driveStream]
  | cons c rest ih =>
    have hc : (c == format_done_message) = false := by
      simp [h c (List.mem_cons_self c rest)]
    simp [driveStream, hc, ih (fun x hx => h x (List.mem_cons_of_mem c hx))]

lemma count_done_frames (messageId model : Str) (cs : List Str) :
    (cs.map (fun c => format_stream_chunk messageId c model)).count format_done_message = 0 := by
  rw [List.count_eq_zero]
  intro hmem
  exact frames_no_done messageId model cs format_done_message hmem rfl

/-- C1: when the default-model stream, or the fallback-model stream after a
default failure, completes cleanly, the orchestrated stream (try_with_models
driven by stream_response) carries exactly one terminal sentinel and it is
the last element; when both attempts fail no sentinel is ever yielded. -/
theorem C1_terminal_sentinel (providerName defaultModel fallbackModel messageId : Str)
    (dvs fvs : VendorStream) :
    ((dvs.error = none ∨ fvs.error = none) →
      (driveStream (try_with_models providerName defaultModel fallbackModel messageId
          dvs fvs).1).count format_done_message = 1 ∧
      (driveStream (try_with_models providerName defaultModel fallbackModel messageId
          dvs fvs).1).getLast? = some format_done_message) ∧
    (dvs.error ≠ none → fvs.error ≠ none →
      (driveStream (try_with_models providerName defaultModel fallbackModel messageId
          dvs fvs).1).count format_done_message = 0) := by
  obtain ⟨dchunks, derror⟩ := dvs
  obtain ⟨fchunks, ferror⟩ := fvs
  cases derror with
  | none =>
    constructor
    · intro _
      simp only [try_with_models, openaiStreamResponse]
      rw [driveStream_append_done (frames_no_done messageId defaultModel _)]
      refine ⟨?_, List.getLast?_concat _⟩
      rw [List.count_append, count_done_frames]
      simp [List.count_cons]
    · intro hd _
      exact absurd rfl hd
  | some de =>
    cases ferror with
    | none =>
      constructor
      · intro _
        simp only [try_with_models, openaiStreamResponse]
        rw [← List.append_assoc, driveStream_append_done ?hnd]
        case hnd =>
          intro x hx
          rcases List.mem_append.mp hx with h1 | h2
          · exact frames_no_done messageId defaultModel _ x h1
          · exact frames_no_done messageId fallbackModel _ x h2
        refine ⟨?_, List.getLast?_concat _⟩
        rw [List.count_append, List.count_append, count_done_frames, count_done_frames]
        simp [List.count_cons]
      · intro _ hf
        exact absurd rfl hf
    | some fe =>
      constructor
      · rintro (h | h) <;> exact absurd h (by simp)
      · intro _ _
        simp only [try_with_models, openaiStreamResponse]
        rw [driveStream_of_no_done ?hnd]
        case hnd =>
          intro x hx
          rcases List.mem_append.mp hx with h1 | h2
          · exact frames_no_done messageId defaultModel _ x h1
          · exact frames_no_done messageId fallbackModel _ x h2
        rw [List.count_append, count_done_frames, count_done_frames]

/-- C1 witness: a concrete run in which the default model fails mid-stream
and the fallback completes; the driven output ends in exactly one sentinel. -/
theorem C1_witness :
    (driveStream (try_with_models (chars ("gpt")) (chars ("gpt-4o")) (chars ("gpt-4o-mini"))
        (chars ("gpt-17")) ⟨[some (chars ("par")), none], some (chars ("boom"))⟩
        ⟨[some (chars ("4"))], none⟩).1).count format_done_message = 1 ∧
    (driveStream (try_with_models (chars ("gpt")) (chars ("gpt-4o")) (chars ("gpt-4o-mini"))
        (chars ("gpt-17")) ⟨[some (chars ("par")), none], some (chars ("boom"))⟩
        ⟨[some (chars ("4"))], none⟩).1).getLast? = some format_done_message :=
  (C1_terminal_sentinel (chars ("gpt")) (chars ("gpt-4o")) (chars ("gpt-4o-mini"))
      (chars ("gpt-17")) ⟨[some (chars ("par")), none], some (chars ("boom"))⟩
      ⟨[some (chars ("4"))], none⟩).1 (Or.inr rfl)

/-- C4 counterexample: when the default attempt fails with one message and
the fallback with another, the single terminal error contains the provider
name and the fallback (inner) message, but the message of the first, default
attempt error does not occur in it, contradicting the claim that both
failure causes are contained. -/
theorem C4_counterexample :
    (try_with_models (chars ("gpt")) (chars ("gpt-4o")) (chars ("gpt-4o-mini"))
        (chars ("gpt-17")) ⟨[], some (chars ("default boom"))⟩
        ⟨[], some (chars ("fallback boom"))⟩).2 =
      some (HErr.httpException 500
        (chars ("Both default and fallback models failed for provider gpt: fallback boom"))) ∧
    ¬ (chars ("default boom") <:+:
        chars ("Both default and fallback models failed for provider gpt: fallback boom")) := by
  constructor
  · decide
  · decide

/-- C4 amended: if both the default and the fallback stream attempts raise,
try_with_models raises exactly one terminal HTTP 500 error whose detail
contains the provider name and the message of the second (fallback) failure
- but not, in general, the message of the first failure - and no sentinel is
yielded. -/
theorem C4_both_fail_single_error (providerName defaultModel fallbackModel messageId : Str)
    (dvs fvs : VendorStream) (de ie : Str)
    (hd : dvs.error = some de) (hf : fvs.error = some ie) :
    (try_with_models providerName defaultModel fallbackModel messageId dvs fvs).2 =
      some (HErr.httpException 500
        (chars ("Both default and fallback models failed for provider ") ++ providerName ++
          chars (": ") ++ ie)) ∧
    providerName <:+:
      (chars ("Both default and fallback models failed for provider ") ++ providerName ++
        chars (": ") ++ ie) ∧
    ie <:+:
      (chars ("Both default and fallback models failed for provider ") ++ providerName ++
        chars (": ") ++ ie) ∧
    ∀ x ∈ (try_with_models providerName defaultModel fallbackModel messageId dvs fvs).1,
      x ≠ format_done_message := by
  obtain ⟨dchunks, derror⟩ := dvs
  obtain ⟨fchunks, ferror⟩ := fvs
  cases hd
  cases hf
  refine ⟨rfl, ?_, ?_, ?_⟩
  · exact ⟨chars ("Both default and fallback models failed for provider "),
      chars (": ") ++ ie, by simp⟩
  · exact ⟨chars ("Both default and fallback models failed for provider ") ++ providerName ++
      chars (": "), [], by simp⟩
  · intro x hx
    simp only [try_with_models, openaiStreamResponse] at hx
    rcases List.mem_append.mp hx with h1 | h2
    · exact frames_no_done messageId defaultModel _ x h1
    · exact frames_no_done messageId fallbackModel _ x h2

/-- C4 amended witness at a concrete double failure. -/
theorem C4_witness :
    (try_with_models (chars ("gpt")) (chars ("gpt-4o")) (chars ("gpt-4o-mini"))
        (chars ("gpt-18")) ⟨[some (chars ("x"))], some (chars ("errA"))⟩
        ⟨[], some (chars ("errB"))⟩).2 =
      some (HErr.httpException 500
        (chars ("Both default and fallback models failed for provider ") ++ chars ("gpt") ++
          chars (": ") ++ chars ("errB"))) ∧
    chars ("gpt") <:+:
      (chars ("Both default and fallback models failed for provider ") ++ chars ("gpt") ++
        chars (": ") ++ chars ("errB")) ∧
    chars ("errB") <:+:
      (chars ("Both default and fallback models failed for provider ") ++ chars ("gpt") ++
        chars (": ") ++ chars ("errB")) ∧
    ∀ x ∈ (try_with_models (chars ("gpt")) (chars ("gpt-4o")) (chars ("gpt-4o-mini"))
        (chars ("gpt-18")) ⟨[some (chars ("x"))], some (chars ("errA"))⟩
        ⟨[], some (chars ("errB"))⟩).1, x ≠ format_done_message :=
  C4_both_fail_single_error (chars ("gpt")) (chars ("gpt-4o")) (chars ("gpt-4o-mini"))
    (chars ("gpt-18")) ⟨[some (chars ("x"))], some (chars ("errA"))⟩
    ⟨[], some (chars ("errB"))⟩ (chars ("errA")) (chars ("errB")) rfl rfl

/-- aiproviders.py health_check_provider.  Wall-clock instants are modelled
as integers: startTime is the reading taken right after the supported-check
and endTime the reading taken when the guarded block finishes, by success or
by exception.  The outcome argument is the combined result of the adapter
lookup and the adapter health_check call (error = the text of the exception
either of them raised).  The function always returns a triple; it never
propagates an exception. -/
def health_check_provider (supportedProviders : List Str) (provider : Str)
    (outcome : Except Str Str) (startTime endTime : Int) : Bool × Str × Int :=
  if provider ∉ supportedProviders then
    (false, chars ("Invalid provider. Supported: ") ++
      List.intercalate (chars (", ")) supportedProviders, 0)
  else
    match outcome with
    | .ok _ => (true, chars ("Model responding correctly"), endTime - startTime)
    | .error e => (false, e, endTime - startTime)

/-- C5: health_check_provider always returns: an unsupported provider name
yields (false, message, 0) with a value independent of every clock reading
and of the adapter outcome, and any exception text e from the adapter lookup
or call yields (false, e, endTime - startTime) with the elapsed time taken
from the reading just before the guarded block to the reading just after the
failure. -/
theorem C5_health_check_never_raises (supported : List Str) (provider : Str)
    (outcome : Except Str Str) (t0 t1 : Int) :
    (provider ∉ supported →
      health_check_provider supported provider outcome t0 t1 =
        (false, chars ("Invalid provider. Supported: ") ++
          List.intercalate (chars (", ")) supported, 0)) ∧
    (provider ∈ supported → ∀ e : Str, outcome = .error e →
      health_check_provider supported provider outcome t0 t1 = (false, e, t1 - t0)) := by
  constructor
  · intro hns
    simp [health_check_provider, hns]
  · intro hs e he
    subst he
    simp [health_check_provider, hs]

/-- C5 witness: an unknown provider is rejected without touching the clock
readings, and a TimeoutError text from a supported provider is returned, not
raised. -/
theorem C5_witness :
    health_check_provider [chars ("gpt"), chars ("claude")] (chars ("grok"))
        (Except.error (chars ("unused"))) 3 9 =
      (false, chars ("Invalid provider. Supported: ") ++
        List.intercalate (chars (", ")) [chars ("gpt"), chars ("claude")], 0) ∧
    health_check_provider [chars ("gpt"), chars ("claude")] (chars ("claude"))
        (Except.error (chars ("TimeoutError: request timed out"))) 3 9 =
      (false, chars ("TimeoutError: request timed out"), 9 - 3) :=
  ⟨(C5_health_check_never_raises [chars ("gpt"), chars ("claude")] (chars ("grok"))
      (Except.error (chars ("unused"))) 3 9).1 (by decide),
   (C5_health_check_never_raises [chars ("gpt"), chars ("claude")] (chars ("claude"))
      (Except.error (chars ("TimeoutError: request timed out"))) 3 9).2 (by decide)
      (chars ("TimeoutError: request timed out")) rfl⟩

/-- C10: whenever the adapter health_check call returns a reply without
raising, health_check_provider reports ok with the fixed message, whatever
the reply text is - the reply is never compared to the probe answer. -/
theorem C10_health_check_ignores_reply (supported : List Str) (provider : Str)
    (reply : Str) (t0 t1 : Int) (h : provider ∈ supported) :
    health_check_provider supported provider (Except.ok reply) t0 t1 =
      (true, chars ("Model responding correctly"), t1 - t0) := by
  simp [health_check_provider, h]

/-- C10 witness: a reply that is plainly the wrong answer to the 2+2 probe
still yields ok=true with the fixed message. -/
theorem C10_witness :
    health_check_provider [chars ("gpt")] (chars ("gpt"))
        (Except.ok (chars ("five, probably"))) 2 7 =
      (true, chars ("Model responding correctly"), 7 - 2) :=
  C10_health_check_ignores_reply [chars ("gpt")] (chars ("gpt"))
    (chars ("five, probably")) 2 7 (by decide)

/-- Decimal digits of a number, as Python str of an int. -/
def natStr (n : Nat) : Str := Nat.toDigits 10 n

/-- models.py ConversationMessage.validate_content_length, with the two
configured bounds as arguments (configuration.py defaults: min 1, max
24000).  Returns the content on success and the pydantic error text
otherwise.  Note the source compares the stripped length against the
minimum but the raw length against the maximum. -/
def validate_content_length (minLen maxLen : Nat) (v : Str) : Except Str Str :=
  if (pyStrip v).isEmpty then Except.error (chars ("Message content cannot be empty"))
  else if (pyStrip v).length < minLen then
    Except.error (chars ("Message content must be at least ") ++ natStr minLen ++
      chars (" characters"))
  else if maxLen < v.length then
    Except.error (chars ("Message exceeds maximum length of ") ++ natStr maxLen ++
      chars (" characters"))
  else Except.ok v

/-- The content used by the C7 counterexample: 24000 letters followed by one
trailing space, so the trimmed length equals the configured default maximum
while the raw length exceeds it. -/
def longContent : Str := List.replicate 24000 'a' ++ [' ']

lemma pyStrip_longContent : pyStrip longContent = List.replicate 24000 'a' := by
  unfold longContent pyStrip pyLstrip pyRstrip
  rw [show (24000 : Nat) = 23999 + 1 from rfl, List.replicate_succ, List.cons_append,
    List.dropWhile_cons]
  rw [if_neg (by decide)]
  rw [← List.cons_append, ← List.replicate_succ, List.reverse_append, List.reverse_replicate]
  simp only [List.reverse_cons, List.reverse_nil, List.nil_append, List.singleton_append,
    List.dropWhile_cons]
  rw [if_pos (by decide), List.dropWhile_replicate]
  rw [if_neg (by decide), List.reverse_replicate]

/-- C7 counterexample: with the default configured bounds, a content of
24000 letters and one trailing space is nonempty after trimming and its
trimmed length lies within [1, 24000], yet validation rejects it, because
the source compares the raw, untrimmed length against the maximum. -/
theorem C7_counterexample :
    pyStrip longContent ≠ [] ∧
    1 ≤ (pyStrip longContent).length ∧ (pyStrip longContent).length ≤ 24000 ∧
    (validate_content_length 1 24000 longContent).isOk = false := by
  have hlen : (List.replicate 24000 'a' : Str).length = 24000 := List.length_replicate _ _
  have hne : (List.replicate 24000 'a' : Str) ≠ [] := by
    intro h
    have h2 := congrArg List.length h
    rw [hlen] at h2
    exact absurd h2 (by norm_num)
  have hlong : longContent.length = 24001 := by
    unfold longContent
    rw [List.length_append, hlen]
    rfl
  have hie : (List.replicate 24000 'a' : Str).isEmpty = false := by
    cases hmm : (List.replicate 24000 'a' : Str).isEmpty
    · rfl
    · exact absurd (List.isEmpty_iff.mp hmm) hne
  rw [pyStrip_longContent]
  refine ⟨hne, by rw [hlen]; norm_num, by rw [hlen], ?_⟩
  unfold validate_content_length
  rw [pyStrip_longContent]
  rw [if_neg (by simp [hie]), if_neg (by rw [hlen]; norm_num),
    if_pos (by rw [hlong]; norm_num)]
  rfl

/-- C7 amended: construction succeeds exactly when the trimmed content is
nonempty, the trimmed length is at least the configured minimum, and the
raw (untrimmed) length is at most the configured maximum; otherwise an error
is raised and no message is produced. -/
theorem C7_content_validation (minLen maxLen : Nat) (v : Str) :
    (validate_content_length minLen maxLen v).isOk = true ↔
      (pyStrip v ≠ [] ∧ minLen ≤ (pyStrip v).length ∧ v.length ≤ maxLen) := by
  unfold validate_content_length
  by_cases h1 : (pyStrip v).isEmpty
  · rw [if_pos h1]
    simp [Except.isOk, Except.toBool, List.isEmpty_iff.mp h1]
  · rw [if_neg h1]
    have hne : pyStrip v ≠ [] := by
      intro hx; exact h1 (by simp [hx])
    by_cases h2 : (pyStrip v).length < minLen
    · rw [if_pos h2]
      simp [Except.isOk, Except.toBool, hne]
      omega
    · rw [if_neg h2]
      by_cases h3 : maxLen < v.length
      · rw [if_pos h3]
        simp [Except.isOk, Except.toBool, hne]
        omega
      · rw [if_neg h3]
        simp [Except.isOk, Except.toBool, hne]
        omega

/-- configuration.py PROVIDER_SETTINGS entry for one provider.  Temperatures
are modelled as rationals. -/
structure ProviderSettings where
  apiKey : Option Str
  defaultModel : Str
  fallbackModel : Str
  temperature : Rat
  maxTokens : Nat
  systemPrompt : Str
deriving DecidableEq, Repr

/-- The four adapter classes registered in providers/factory.py. -/
inductive ProviderClass where
  | openai
  | anthropic
  | gemini
  | groq
deriving DecidableEq, Repr

/-- The provider name each adapter class passes to the BaseProvider
constructor. -/
def providerClassName : ProviderClass → Str
  | .openai => chars ("gpt")
  | .anthropic => chars ("claude")
  | .gemini => chars ("gemini")
  | .groq => chars ("groq")

/-- providers/factory.py ProviderFactory provider-classes table. -/
def providerClasses (name : Str) : Option ProviderClass :=
  if name = chars ("gpt") then some ProviderClass.openai
  else if name = chars ("claude") then some ProviderClass.anthropic
  else if name = chars ("gemini") then some ProviderClass.gemini
  else if name = chars ("groq") then some ProviderClass.groq
  else none

/-- The fields of a constructed BaseProvider instance (the vendor client
handle, built from the api key, is an external resource and carries no
state observed by any claim). -/
structure BaseProviderState where
  providerName : Str
  defaultModel : Str
  fallbackModel : Str
  temperature : Rat
  maxTokens : Nat
  systemPrompt : Str
deriving DecidableEq, Repr

/-- The adapter constructor call made by the factory. -/
def mkProvider (cls : ProviderClass) (s : ProviderSettings) : BaseProviderState :=
  { providerName := providerClassName cls
    defaultModel := s.defaultModel
    fallbackModel := s.fallbackModel
    temperature := s.temperature
    maxTokens := s.maxTokens
    systemPrompt := s.systemPrompt }

/-- providers/factory.py ProviderFactory, private init method: stores a new
instance only when the provider has settings, a registered class and a
truthy api key; otherwise it logs and leaves the cache untouched.  The
instance cache is an association list looked up by provider name. -/
def init_provider (settings : Str → Option ProviderSettings)
    (instances : List (Str × BaseProviderState)) (name : Str) :
    List (Str × BaseProviderState) :=
  match settings name with
  | none => instances
  | some s =>
    match providerClasses name with
    | none => instances
    | some cls =>
      match s.apiKey with
      | none => instances
      | some key => if key.isEmpty then instances else (name, mkProvider cls s) :: instances

/-- providers/factory.py ProviderFactory.get_provider: reject unsupported
names with HTTP 400, lazily initialize on a cache miss, raise HTTP 500 when
the instance is still missing afterwards, and return the cached instance
otherwise.  Returns the result together with the updated cache. -/
def get_provider (settings : Str → Option ProviderSettings) (supported : List Str)
    (instances : List (Str × BaseProviderState)) (name : Str) :
    Except HErr BaseProviderState × List (Str × BaseProviderState) :=
  if name ∉ supported then
    (Except.error (HErr.httpException 400
      (chars ("Provider ") ++ name ++ chars (" not supported"))), instances)
  else
    let instances2 :=
      if (instances.lookup name).isNone then init_provider settings instances name
      else instances
    match instances2.lookup name with
    | none =>
      (Except.error (HErr.httpException 500
        (chars ("Provider ") ++ name ++ chars (" could not be initialized"))), instances2)
    | some inst => (Except.ok inst, instances2)

lemma init_provider_no_key (settings : Str → Option ProviderSettings)
    (instances : List (Str × BaseProviderState)) (name : Str) (s : ProviderSettings)
    (hset : settings name = some s) (hkey : s.apiKey = none ∨ s.apiKey = some []) :
    init_provider settings instances name = instances := by
  unfold init_provider
  rw [hset]
  cases hcls : providerClasses name with
  | none => simp
  | some cls =>
    rcases hkey with hk | hk <;> simp [hk]

/-- C8: for a supported provider whose api key is absent, every call to
get_provider raises the HTTP 500 provider-could-not-be-initialized error and
returns the cache unchanged - no partially constructed adapter is ever
stored - and therefore iterating the call any number of times leaves the
cache unchanged. -/
theorem C8_missing_key_never_caches (settings : Str → Option ProviderSettings)
    (supported : List Str) (instances : List (Str × BaseProviderState))
    (name : Str) (s : ProviderSettings)
    (hsup : name ∈ supported) (hset : settings name = some s)
    (hkey : s.apiKey = none ∨ s.apiKey = some [])
    (hmiss : instances.lookup name = none) :
    get_provider settings supported instances name =
      (Except.error (HErr.httpException 500
        (chars ("Provider ") ++ name ++ chars (" could not be initialized"))), instances) ∧
    ∀ n : Nat,
      (fun c => (get_provider settings supported c name).2)^[n] instances = instances := by
  have hone : get_provider settings supported instances name =
      (Except.error (HErr.httpException 500
        (chars ("Provider ") ++ name ++ chars (" could not be initialized"))), instances) := by
    unfold get_provider
    rw [if_neg (by simp [hsup])]
    simp only [hmiss, Option.isNone_none, if_true,
      init_provider_no_key settings instances name s hset hkey]
  refine ⟨hone, ?_⟩
  intro n
  induction n with
  | zero => rfl
  | succ k ih =>
    rw [Function.iterate_succ_apply', ih, hone]

/-- C8 witness: a supported provider with no api key, called repeatedly on
an empty cache. -/
theorem C8_witness :
    get_provider
        (fun n => if n = chars ("gpt") then
          some ⟨none, chars ("gpt-4o"), chars ("gpt-4o-mini"), 3 / 10, 8192,
            GPT_SYSTEM_PROMPT⟩ else none)
        [chars ("gpt"), chars ("claude")] [] (chars ("gpt")) =
      (Except.error (HErr.httpException 500
        (chars ("Provider ") ++ chars ("gpt") ++ chars (" could not be initialized"))), []) ∧
    (fun c => (get_provider
        (fun n => if n = chars ("gpt") then
          some ⟨none, chars ("gpt-4o"), chars ("gpt-4o-mini"), 3 / 10, 8192,
            GPT_SYSTEM_PROMPT⟩ else none)
        [chars ("gpt"), chars ("claude")] c (chars ("gpt"))).2)^[5] [] = [] := by
  have h := C8_missing_key_never_caches
    (fun n => if n = chars ("gpt") then
      some ⟨none, chars ("gpt-4o"), chars ("gpt-4o-mini"), 3 / 10, 8192,
        GPT_SYSTEM_PROMPT⟩ else none)
    [chars ("gpt"), chars ("claude")] [] (chars ("gpt"))
    ⟨none, chars ("gpt-4o"), chars ("gpt-4o-mini"), 3 / 10, 8192, GPT_SYSTEM_PROMPT⟩
    (by decide) rfl (Or.inl rfl) rfl
  exact ⟨h.1, h.2 5⟩

/-- Value of one hexadecimal digit (the json \uXXXX decoder accepts both
cases). -/
def hexVal (c : Char) : Option Nat :=
  if 48 ≤ c.toNat ∧ c.toNat ≤ 57 then some (c.toNat - 48)
  else if 97 ≤ c.toNat ∧ c.toNat ≤ 102 then some (c.toNat - 87)
  else if 65 ≤ c.toNat ∧ c.toNat ≤ 70 then some (c.toNat - 55)
  else none

/-- The named two-character json escapes accepted by the decoder. -/
def escChar (e : Char) : Option Char :=
  if e = '"' then some '"'
  else if e = '\\' then some '\\'
  else if e = '/' then some '/'
  else if e = 'b' then some (Char.ofNat 8)
  else if e = 'f' then some (Char.ofNat 12)
  else if e = 'n' then some '\n'
  else if e = 'r' then some '\r'
  else if e = 't' then some '\t'
  else none

/-- Body of a json string literal, read until the closing quote: literal
characters (control characters rejected, as by the strict json scanner),
named escapes, \uXXXX escapes and high/low surrogate pairs.  A lone
surrogate escape denotes no Unicode scalar value and is rejected.  Returns
the decoded characters and the input remaining after the closing quote. -/
def parseStrBody : List Char → Option (List Char × List Char)
  | [] => none
  | '"' :: rest => some ([], rest)
  | '\\' :: 'u' :: a :: b :: c :: d :: rest =>
    (match hexVal a, hexVal b, hexVal c, hexVal d with
    | some va, some vb, some vc, some vd =>
      if ((va * 16 + vb) * 16 + vc) * 16 + vd < 0xD800 ∨
          0xDFFF < ((va * 16 + vb) * 16 + vc) * 16 + vd then
        (parseStrBody rest).map
          (fun p => (Char.ofNat (((va * 16 + vb) * 16 + vc) * 16 + vd) :: p.1, p.2))
      else if ((va * 16 + vb) * 16 + vc) * 16 + vd ≤ 0xDBFF then
        match rest with
        | '\\' :: 'u' :: a2 :: b2 :: c2 :: d2 :: rest2 =>
          (match hexVal a2, hexVal b2, hexVal c2, hexVal d2 with
          | some va2, some vb2, some vc2, some vd2 =>
            if 0xDC00 ≤ ((va2 * 16 + vb2) * 16 + vc2) * 16 + vd2 ∧
                ((va2 * 16 + vb2) * 16 + vc2) * 16 + vd2 ≤ 0xDFFF then
              (parseStrBody rest2).map (fun p =>
                (Char.ofNat (0x10000 +
                    ((((va * 16 + vb) * 16 + vc) * 16 + vd) - 0xD800) * 1024 +
                    (((va2 * 16 + vb2) * 16 + vc2) * 16 + vd2 - 0xDC00)) :: p.1, p.2))
            else none
          | _, _, _, _ => none)
        | _ => none
      else none
    | _, _, _, _ => none)
  | '\\' :: e :: rest =>
    (match escChar e with
    | some c => (parseStrBody rest).map (fun p => (c :: p.1, p.2))
    | none => none)
  | c :: rest =>
    if c.toNat < 0x20 then none
    else (parseStrBody rest).map (fun p => (c :: p.1, p.2))

/-- A json string literal: an opening quote followed by a body. -/
def parseJsonString : List Char → Option (List Char × List Char)
  | '"' :: rest => parseStrBody rest
  | _ => none

/-- Remove an expected literal prefix. -/
def stripPre : List Char → List Char → Option (List Char)
  | [], l => some l
  | _ :: _, [] => none
  | p :: ps, c :: cs => if c = p then stripPre ps cs else none

/-- The inverse direction of the SSE framer: strip the data prefix,
json-decode an object of the exact shape produced by format_stream_chunk
(id string, delta object with content and model strings, json string
escaping decoded), and strip the trailing blank line.  Succeeds only when
the whole input is consumed. -/
def decodeStreamChunk (s : Str) : Option (Str × Str × Str) := do
  let r1 ← stripPre (chars ("data: ")) s
  let r2 ← stripPre (chars ("\x7b\"id\": ")) r1
  let (idv, r3) ← parseJsonString r2
  let r4 ← stripPre (chars (", \"delta\": \x7b\"content\": ")) r3
  let (cv, r5) ← parseJsonString r4
  let r6 ← stripPre (chars (", \"model\": ")) r5
  let (mv, r7) ← parseJsonString r6
  let r8 ← stripPre (chars ("\x7d\x7d")) r7
  let r9 ← stripPre (chars ("\n\n")) r8
  if r9.isEmpty then some (idv, cv, mv) else none

lemma hexVal_hexDig (n : Nat) (h : n < 16) : hexVal (hexDig n) = some n := by
  interval_cases n <;> decide

lemma charValidRange (c : Char) :
    c.toNat < 0xD800 ∨ (0xDFFF < c.toNat ∧ c.toNat < 0x110000) := c.valid

lemma parseStrBody_encodeChar (ch : Char) (rest : List Char) :
    parseStrBody (encodeChar ch ++ rest)
      = (parseStrBody rest).map (fun p => (ch :: p.1, p.2)) := by
  by_cases h1 : ch = '"'
  · subst h1; rfl
  by_cases h2 : ch = '\\'
  · subst h2; rfl
  by_cases h3 : 0x20 ≤ ch.toNat ∧ ch.toNat ≤ 0x7E
  · have he : encodeChar ch = [ch] := by
      simp [encodeChar, h1, h2, h3]
    have h20 : ¬ ch.toNat < 0x20 := by omega
    rw [he, List.singleton_append, parseStrBody.eq_def]
    simp [h1, h2, h20]
  by_cases h4 : ch = Char.ofNat 8
  · subst h4; rfl
  by_cases h5 : ch = '\t'
  · subst h5; rfl
  by_cases h6 : ch = '\n'
  · subst h6; rfl
  by_cases h7 : ch = Char.ofNat 12
  · subst h7; rfl
  by_cases h8 : ch = '\r'
  · subst h8; rfl
  by_cases h9 : ch.toNat < 0x10000
  · have he : encodeChar ch = '\\' :: 'u' :: hex4 ch.toNat := by
      simp [encodeChar, h1, h2, h3, h4, h5, h6, h7, h8, h9]
    rw [he]
    have ha := hexVal_hexDig (ch.toNat / 4096 % 16) (Nat.mod_lt _ (by norm_num))
    have hb := hexVal_hexDig (ch.toNat / 256 % 16) (Nat.mod_lt _ (by norm_num))
    have hc := hexVal_hexDig (ch.toNat / 16 % 16) (Nat.mod_lt _ (by norm_num))
    have hd := hexVal_hexDig (ch.toNat % 16) (Nat.mod_lt _ (by norm_num))
    have hrecon : ((ch.toNat / 4096 % 16 * 16 + ch.toNat / 256 % 16) * 16 +
        ch.toNat / 16 % 16) * 16 + ch.toNat % 16 = ch.toNat := by omega
    have hval : ch.toNat < 0xD800 ∨ 0xDFFF < ch.toNat := by
      rcases charValidRange ch with h | h
      · exact Or.inl h
      · exact Or.inr h.1
    simp only [hex4, List.cons_append, List.nil_append, parseStrBody, ha, hb, hc, hd, hrecon,
      Char.ofNat_toNat]
    rw [if_pos hval]
  · have hlt : ch.toNat < 0x110000 := by
      rcases charValidRange ch with h | h
      · omega
      · exact h.2
    have he : encodeChar ch =
        ('\\' :: 'u' :: hex4 (0xD800 + (ch.toNat - 0x10000) / 1024)) ++
        ('\\' :: 'u' :: hex4 (0xDC00 + (ch.toNat - 0x10000) % 1024)) := by
      simp [encodeChar, h1, h2, h3, h4, h5, h6, h7, h8, h9]
    rw [he]
    have hhilt : 0xD800 + (ch.toNat - 0x10000) / 1024 < 0x10000 := by omega
    have hlolt : 0xDC00 + (ch.toNat - 0x10000) % 1024 < 0x10000 := by
      have := Nat.mod_lt (ch.toNat - 0x10000) (show 0 < 1024 by norm_num)
      omega
    have ha := hexVal_hexDig ((0xD800 + (ch.toNat - 0x10000) / 1024) / 4096 % 16)
      (Nat.mod_lt _ (by norm_num))
    have hb := hexVal_hexDig ((0xD800 + (ch.toNat - 0x10000) / 1024) / 256 % 16)
      (Nat.mod_lt _ (by norm_num))
    have hc := hexVal_hexDig ((0xD800 + (ch.toNat - 0x10000) / 1024) / 16 % 16)
      (Nat.mod_lt _ (by norm_num))
    have hd := hexVal_hexDig ((0xD800 + (ch.toNat - 0x10000) / 1024) % 16)
      (Nat.mod_lt _ (by norm_num))
    have ha2 := hexVal_hexDig ((0xDC00 + (ch.toNat - 0x10000) % 1024) / 4096 % 16)
      (Nat.mod_lt _ (by norm_num))
    have hb2 := hexVal_hexDig ((0xDC00 + (ch.toNat - 0x10000) % 1024) / 256 % 16)
      (Nat.mod_lt _ (by norm_num))
    have hc2 := hexVal_hexDig ((0xDC00 + (ch.toNat - 0x10000) % 1024) / 16 % 16)
      (Nat.mod_lt _ (by norm_num))
    have hd2 := hexVal_hexDig ((0xDC00 + (ch.toNat - 0x10000) % 1024) % 16)
      (Nat.mod_lt _ (by norm_num))
    have hreconHi : (((0xD800 + (ch.toNat - 0x10000) / 1024) / 4096 % 16 * 16 +
        (0xD800 + (ch.toNat - 0x10000) / 1024) / 256 % 16) * 16 +
        (0xD800 + (ch.toNat - 0x10000) / 1024) / 16 % 16) * 16 +
        (0xD800 + (ch.toNat - 0x10000) / 1024) % 16
        = 0xD800 + (ch.toNat - 0x10000) / 1024 := by omega
    have hreconLo : (((0xDC00 + (ch.toNat - 0x10000) % 1024) / 4096 % 16 * 16 +
        (0xDC00 + (ch.toNat - 0x10000) % 1024) / 256 % 16) * 16 +
        (0xDC00 + (ch.toNat - 0x10000) % 1024) / 16 % 16) * 16 +
        (0xDC00 + (ch.toNat - 0x10000) % 1024) % 16
        = 0xDC00 + (ch.toNat - 0x10000) % 1024 := by omega
    have hnotbmp : ¬ (0xD800 + (ch.toNat - 0x10000) / 1024 < 0xD800 ∨
        0xDFFF < 0xD800 + (ch.toNat - 0x10000) / 1024) := by omega
    have hhi2 : 0xD800 + (ch.toNat - 0x10000) / 1024 ≤ 0xDBFF := by omega
    have hlorange : 0xDC00 ≤ 0xDC00 + (ch.toNat - 0x10000) % 1024 ∧
        0xDC00 + (ch.toNat - 0x10000) % 1024 ≤ 0xDFFF := by
      have := Nat.mod_lt (ch.toNat - 0x10000) (show 0 < 1024 by norm_num)
      omega
    have hcomb : 0x10000 + (0xD800 + (ch.toNat - 0x10000) / 1024 - 0xD800) * 1024 +
        (0xDC00 + (ch.toNat - 0x10000) % 1024 - 0xDC00) = ch.toNat := by omega
    simp only [hex4, List.cons_append, List.nil_append, List.append_assoc, parseStrBody,
      ha, hb, hc, hd, ha2, hb2, hc2, hd2, hreconHi, hreconLo]
    rw [if_neg hnotbmp, if_pos hhi2]
    rw [if_pos hlorange]
    rw [hcomb, Char.ofNat_toNat]

lemma parseStrBody_encodeBody (s : Str) (rest : List Char) :
    parseStrBody (encodeBody s ++ ('"' :: rest)) = some (s, rest) := by
  induction s with
  | nil => rfl
  | cons c s ih =>
    rw [show encodeBody (c :: s) = encodeChar c ++ encodeBody s from rfl, List.append_assoc,
      parseStrBody_encodeChar, ih]
    rfl

lemma parseJsonString_encodeString (s : Str) (rest : List Char) :
    parseJsonString (encodeString s ++ rest) = some (s, rest) := by
  rw [show encodeString s ++ rest = '"' :: (encodeBody s ++ ('"' :: rest)) from by
    simp [encodeString]]
  exact parseStrBody_encodeBody s rest

lemma stripPre_append (p rest : List Char) : stripPre p (p ++ rest) = some rest := by
  induction p with
  | nil => rfl
  | cons c p ih => simp [stripPre, ih]

lemma stripPre_self (p : List Char) : stripPre p p = some [] := by
  have h := stripPre_append p []
  rwa [List.append_nil] at h

/-- C3: the SSE framer round-trips: stripping the data prefix and the
trailing blank line from the output of format_stream_chunk and json-decoding
the remainder recovers exactly the message id, the delta content and the
model name. -/
theorem C3_sse_round_trip (messageId content model : Str) :
    decodeStreamChunk (format_stream_chunk messageId content model)
      = some (messageId, content, model) := by
  unfold decodeStreamChunk format_stream_chunk jsonDumpsChunk
  simp only [List.append_assoc]
  simp [stripPre_append, stripPre_self, parseJsonString_encodeString]


/-- C2 witness: a nontrivial system message is returned verbatim, and an
empty conversation with a known provider gets that provider default. -/
theorem C2_witness :
    get_system_prompt [⟨Role.system, chars ("Be terse."), none, none⟩,
        ⟨Role.user, chars ("hi"), none, none⟩] (some (chars ("gpt")))
      = List.intercalate (chars (" ")) (nontrivialSystemContents
          [⟨Role.system, chars ("Be terse."), none, none⟩,
           ⟨Role.user, chars ("hi"), none, none⟩]) ∧
    get_system_prompt [] (some (chars ("gemini"))) = GEMINI_SYSTEM_PROMPT := by
  refine ⟨(C2_system_prompt_resolution
    [⟨Role.system, chars ("Be terse."), none, none⟩,
     ⟨Role.user, chars ("hi"), none, none⟩] (some (chars ("gpt")))).1 (by decide), ?_⟩
  exact (((C2_system_prompt_resolution ([] : List ConversationMessage)
    (some (chars ("gemini")))).2 rfl).1 (chars ("gemini")) rfl).2.2.1 rfl
